import Mathlib

/- Formal model of the heart-disease prediction service of
`Assignment/api_server.py`.  The handlers `/predict` and `/predict/batch`, the
input schema `PatientData`, the preprocessing step, the confidence computation
and the health endpoint are transcribed from the source.  The scikit-learn
classifier and the fitted `StandardScaler` are external collaborators loaded
from pickled artifacts; they are modelled by their interfaces: a classifier is
an opaque `predict` function with optional `predict_proba` and
`decision_function` attributes, and a scaler applies the per-column
`(x - mean) / scale` transform, positionally over the columns handed to it.
Python floats are modelled as rationals throughout the data path; the
confidence value, which goes through a sigmoid in one branch, lives in `ℝ`.
Prometheus telemetry relevant to the claims (prediction counters, confidence
observations, error counters) is modelled as an append-only event list. -/

namespace HeartAPI

/-- Pandas column dtypes occurring in this service.  A one-row dataframe built
from `patient.dict()` has `int64` columns for the twelve integer fields and a
`float64` column for `oldpeak`. -/
inductive Dtype
  | int64
  | float64
  | obj
  deriving DecidableEq

/-- Whether a dtype is kept by
`select_dtypes(include=['int64', 'float64', 'Int64', 'Float64'])`
(`api_server.py` lines 321 and 390). -/
def selectedDtype (d : Dtype) : Bool :=
  d == Dtype.int64 || d == Dtype.float64

/-- Validated input record (`PatientData`, `api_server.py` lines 149-163):
twelve integer fields and the float field `oldpeak`, in declaration order. -/
structure PatientData where
  age : ℤ
  sex : ℤ
  cp : ℤ
  trestbps : ℤ
  chol : ℤ
  fbs : ℤ
  restecg : ℤ
  thalach : ℤ
  exang : ℤ
  oldpeak : ℚ
  slope : ℤ
  ca : ℤ
  thal : ℤ

/-- A raw input mapping for the 13 named fields; any field may be missing. -/
structure RawPatient where
  age : Option ℤ
  sex : Option ℤ
  cp : Option ℤ
  trestbps : Option ℤ
  chol : Option ℤ
  fbs : Option ℤ
  restecg : Option ℤ
  thalach : Option ℤ
  exang : Option ℤ
  oldpeak : Option ℚ
  slope : Option ℤ
  ca : Option ℤ
  thal : Option ℤ

/-- Conjunction of the pydantic `Field` range constraints of `PatientData`
(`api_server.py` lines 151-163). -/
def patientInRanges (p : PatientData) : Prop :=
  0 ≤ p.age ∧ p.age ≤ 120 ∧
  0 ≤ p.sex ∧ p.sex ≤ 1 ∧
  1 ≤ p.cp ∧ p.cp ≤ 4 ∧
  0 ≤ p.trestbps ∧
  0 ≤ p.chol ∧
  0 ≤ p.fbs ∧ p.fbs ≤ 1 ∧
  0 ≤ p.restecg ∧ p.restecg ≤ 2 ∧
  0 ≤ p.thalach ∧
  0 ≤ p.exang ∧ p.exang ≤ 1 ∧
  0 ≤ p.oldpeak ∧
  1 ≤ p.slope ∧ p.slope ≤ 3 ∧
  0 ≤ p.ca ∧ p.ca ≤ 3 ∧
  3 ≤ p.thal ∧ p.thal ≤ 7

instance decidablePatientInRanges (p : PatientData) : Decidable (patientInRanges p) := by
  unfold patientInRanges
  infer_instance

/-- Pydantic validation of the request body: every field is required (`...`)
and must satisfy its range constraint; otherwise the framework rejects the
request before the handler runs. -/
def validatePatient (r : RawPatient) : Option PatientData :=
  match r.age, r.sex, r.cp, r.trestbps, r.chol, r.fbs, r.restecg, r.thalach,
        r.exang, r.oldpeak, r.slope, r.ca, r.thal with
  | some age, some sex, some cp, some trestbps, some chol, some fbs,
    some restecg, some thalach, some exang, some oldpeak, some slope,
    some ca, some thal =>
      let p : PatientData :=
        ⟨age, sex, cp, trestbps, chol, fbs, restecg, thalach, exang, oldpeak,
         slope, ca, thal⟩
      if patientInRanges p then some p else none
  | _, _, _, _, _, _, _, _, _, _, _, _, _ => none

/-- The one-row dataframe `pd.DataFrame([patient.dict()])` as a vector of 13
column values, in field-declaration order. -/
def rawVec (p : PatientData) : Fin 13 → ℚ :=
  ![(p.age : ℚ), (p.sex : ℚ), (p.cp : ℚ), (p.trestbps : ℚ), (p.chol : ℚ),
    (p.fbs : ℚ), (p.restecg : ℚ), (p.thalach : ℚ), (p.exang : ℚ), p.oldpeak,
    (p.slope : ℚ), (p.ca : ℚ), (p.thal : ℚ)]

/-- Dtype of each column of the one-row dataframe: `oldpeak` (index 9) is
`float64`, all twelve integer fields are `int64`. -/
def fieldDtype : Fin 13 → Dtype :=
  ![Dtype.int64, Dtype.int64, Dtype.int64, Dtype.int64, Dtype.int64,
    Dtype.int64, Dtype.int64, Dtype.int64, Dtype.int64, Dtype.float64,
    Dtype.int64, Dtype.int64, Dtype.int64]

/-- `numeric_cols = input_data.select_dtypes(include=[...]).columns`: the
columns whose dtype is in the include list, in column order. -/
def numericCols : List (Fin 13) :=
  (List.finRange 13).filter (fun i => selectedDtype (fieldDtype i))

/-- A fitted `StandardScaler`: positional per-feature means and scales, fixed
at training time. -/
structure Scaler where
  mean : ℕ → ℚ
  scale : ℕ → ℚ

/-- Preprocessing step of the `/predict` handler (`api_server.py` lines
319-323): when a scaler is loaded, the numeric-dtype columns are replaced by
`scaler.transform` applied to them, the `j`-th selected column being scaled by
the scaler's `j`-th mean/scale; other columns (and the whole row when no
scaler is loaded or no column is selected) pass through unchanged. -/
def preprocessSingle (scaler : Option Scaler) (v : Fin 13 → ℚ) : Fin 13 → ℚ :=
  match scaler with
  | some sc =>
      if numericCols.length > 0 then
        fun i =>
          if i ∈ numericCols then
            (v i - sc.mean (numericCols.indexOf i)) /
              sc.scale (numericCols.indexOf i)
          else v i
      else v
  | none => v

/-- Preprocessing step of the `/predict/batch` loop (`api_server.py` lines
388-392); the source duplicates the single-prediction code verbatim. -/
def preprocessBatch (scaler : Option Scaler) (v : Fin 13 → ℚ) : Fin 13 → ℚ :=
  match scaler with
  | some sc =>
      if numericCols.length > 0 then
        fun i =>
          if i ∈ numericCols then
            (v i - sc.mean (numericCols.indexOf i)) /
              sc.scale (numericCols.indexOf i)
          else v i
      else v
  | none => v

/-- An opaque trained classifier: `predict` may raise (modelled by `Except`,
carrying the Python exception type name); `predict_proba` and
`decision_function` are optional attributes (`hasattr` probing in the
source). -/
structure Classifier where
  predict : (Fin 13 → ℚ) → Except String ℤ
  predict_proba : Option ((Fin 13 → ℚ) → List ℚ)
  decision_function : Option ((Fin 13 → ℚ) → ℚ)

/-- Python list indexing `l[i]`: non-negative indices in range, negative
indices wrap once, anything else raises `IndexError`. -/
def pyIndex (l : List ℚ) (i : ℤ) : Except String ℚ :=
  if h : 0 ≤ i ∧ i < (l.length : ℤ) then
    .ok (l.get ⟨i.toNat, by omega⟩)
  else if h2 : -(l.length : ℤ) ≤ i ∧ i < 0 then
    .ok (l.get ⟨(i + l.length).toNat, by omega⟩)
  else
    .error "IndexError"

/-- The sigmoid `1 / (1 + exp(-s))` (`api_server.py` line 336). -/
noncomputable def sigmoid (s : ℝ) : ℝ :=
  1 / (1 + Real.exp (-s))

/-- Confidence computation of the `/predict` handler (`api_server.py` lines
329-338): probability of the predicted label when `predict_proba` exists,
otherwise sigmoid of the decision score when `decision_function` exists,
otherwise the default `1.0`. -/
noncomputable def computeConfidence (m : Classifier) (x : Fin 13 → ℚ) (pred : ℤ) :
    Except String ℝ :=
  match m.predict_proba with
  | some proba =>
      match pyIndex (proba x) pred with
      | .ok q => .ok (q : ℝ)
      | .error e => .error e
  | none =>
      match m.decision_function with
      | some df => .ok (sigmoid ((df x : ℚ) : ℝ))
      | none => .ok 1

/-- Confidence computation of the `/predict/batch` loop (`api_server.py` lines
398-406); the source duplicates the single-prediction code verbatim. -/
noncomputable def computeConfidenceBatch (m : Classifier) (x : Fin 13 → ℚ) (pred : ℤ) :
    Except String ℝ :=
  match m.predict_proba with
  | some proba =>
      match pyIndex (proba x) pred with
      | .ok q => .ok (q : ℝ)
      | .error e => .error e
  | none =>
      match m.decision_function with
      | some df => .ok (sigmoid ((df x : ℚ) : ℝ))
      | none => .ok 1

/-- Telemetry events relevant to the claims: a `predictions_total` increment,
a `prediction_confidence_score` observation, an `api_errors_total`
increment. -/
inductive TelemetryEvent
  | predCount (predictionResult : String) (modelName : Option String)
  | confObs (predictionResult : String) (value : ℝ)
  | errCount (errorType : String) (endpoint : String)

/-- The server's module-level state: the loaded model, its name, the loaded
scaler, and the telemetry recorded so far. -/
structure ServerState where
  model : Option Classifier
  modelName : Option String
  scaler : Option Scaler
  events : List TelemetryEvent

/-- Body of a successful `/predict` response (`PredictionResponse`). -/
structure PredictionResponse where
  prediction : ℤ
  confidence : ℝ
  model_name : Option String

/-- Body of a successful `/predict/batch` response
(`BatchPredictionResponse`). -/
structure BatchPredictionResponse where
  predictions : List PredictionResponse
  count : ℕ

/-- Body of the `/health` response. -/
structure HealthResponse where
  status : String
  model_loaded : Bool
  model_name : Option String

/-- The `/predict` handler (`api_server.py` lines 300-362): 503 when no model
is loaded; otherwise build the dataframe, preprocess, predict, compute the
confidence, record prediction telemetry and return the response; any
exception in the inference block is recorded and mapped to a 500 error. -/
noncomputable def predictHandler (st : ServerState) (patient : PatientData) :
    Except (ℕ × String) PredictionResponse × ServerState :=
  match st.model with
  | none =>
      (.error (503, "Model not loaded"),
       { st with events := st.events ++ [.errCount "ModelNotLoaded" "/predict"] })
  | some m =>
      let inputData := preprocessSingle st.scaler (rawVec patient)
      match m.predict inputData with
      | .error e =>
          (.error (500, "Prediction error: " ++ e),
           { st with events := st.events ++ [.errCount e "/predict"] })
      | .ok prediction =>
          match computeConfidence m inputData prediction with
          | .error e =>
              (.error (500, "Prediction error: " ++ e),
               { st with events := st.events ++ [.errCount e "/predict"] })
          | .ok confidence =>
              let predictionResult :=
                if prediction = 1 then "disease" else "no_disease"
              (.ok { prediction := prediction, confidence := confidence,
                     model_name := st.modelName },
               { st with events := st.events ++
                   [.predCount predictionResult st.modelName,
                    .confObs predictionResult confidence] })

/-- One iteration of the `/predict/batch` loop (`api_server.py` lines
384-419): preprocess, predict and compute the confidence exactly as in the
single handler, returning the response object together with the telemetry
events the iteration records; an exception aborts the whole batch. -/
noncomputable def batchStep (m : Classifier) (scaler : Option Scaler)
    (modelName : Option String) (patient : PatientData) :
    Except String (PredictionResponse × List TelemetryEvent) :=
  let inputData := preprocessBatch scaler (rawVec patient)
  match m.predict inputData with
  | .error e => .error e
  | .ok prediction =>
      match computeConfidenceBatch m inputData prediction with
      | .error e => .error e
      | .ok confidence =>
          let predictionResult :=
            if prediction = 1 then "disease" else "no_disease"
          .ok ({ prediction := prediction, confidence := confidence,
                 model_name := modelName },
               [.predCount predictionResult modelName,
                .confObs predictionResult confidence])

/-- The `/predict/batch` loop: iterations run in input order, each appending
its telemetry before the next starts; the first exception aborts the loop,
keeping the telemetry already recorded. -/
noncomputable def runBatchItems (m : Classifier) (scaler : Option Scaler)
    (modelName : Option String) :
    List PatientData → List TelemetryEvent →
      Except String (List PredictionResponse) × List TelemetryEvent
  | [], evs => (.ok [], evs)
  | patient :: rest, evs =>
      match batchStep m scaler modelName patient with
      | .error e => (.error e, evs)
      | .ok (resp, newEvs) =>
          match runBatchItems m scaler modelName rest (evs ++ newEvs) with
          | (.ok resps, evs') => (.ok (resp :: resps), evs')
          | (.error e, evs') => (.error e, evs')

/-- The `/predict/batch` handler (`api_server.py` lines 365-437): 503 when no
model is loaded; otherwise run the loop over the patients, returning the
collected predictions with `count = len(predictions)`, or a 500 error (with
an error-counter increment) if any iteration raised. -/
noncomputable def predictBatchHandler (st : ServerState) (patients : List PatientData) :
    Except (ℕ × String) BatchPredictionResponse × ServerState :=
  match st.model with
  | none =>
      (.error (503, "Model not loaded"),
       { st with events := st.events ++
           [.errCount "ModelNotLoaded" "/predict/batch"] })
  | some m =>
      match runBatchItems m st.scaler st.modelName patients st.events with
      | (.ok resps, evs) =>
          (.ok { predictions := resps, count := resps.length },
           { st with events := evs })
      | (.error e, evs) =>
          (.error (500, "Batch prediction error: " ++ e),
           { st with events := evs ++ [.errCount e "/predict/batch"] })

/-- The `/predict` endpoint as seen from the wire: the framework validates the
body first and rejects it with a 422 response, without invoking the handler,
when validation fails. -/
noncomputable def predictEndpoint (st : ServerState) (r : RawPatient) :
    Except (ℕ × String) PredictionResponse × ServerState :=
  match validatePatient r with
  | none => (.error (422, "validation error"), st)
  | some p => predictHandler st p

/-- The `/health` endpoint (`api_server.py` lines 268-275): always responds
200 with the model-loaded flag and the model name (`None` when no model). -/
def healthCheck (st : ServerState) : ℕ × HealthResponse :=
  (200,
   { status := "healthy",
     model_loaded := st.model.isSome,
     model_name := if st.model.isSome then st.modelName else none })

/-- Telemetry recorded by one successful batch iteration (empty if the
iteration raised before recording). -/
noncomputable def stepEvents (m : Classifier) (scaler : Option Scaler)
    (modelName : Option String) (patient : PatientData) : List TelemetryEvent :=
  match batchStep m scaler modelName patient with
  | .ok (_, evs) => evs
  | .error _ => []

/-- Concatenated telemetry of a list of batch iterations. -/
noncomputable def stepEventsList (m : Classifier) (scaler : Option Scaler)
    (modelName : Option String) : List PatientData → List TelemetryEvent
  | [] => []
  | patient :: rest =>
      stepEvents m scaler modelName patient ++
        stepEventsList m scaler modelName rest

/-- Well-formedness of a trained binary classifier for this service: `predict`
always returns one of the two classes 0/1, and when `predict_proba` is
present it returns a two-class probability vector with entries in `[0, 1]`. -/
def Classifier.WellFormed (m : Classifier) : Prop :=
  (∀ x, ∃ l, m.predict x = .ok l ∧ (l = 0 ∨ l = 1)) ∧
  (∀ f, m.predict_proba = some f → ∀ x,
      (f x).length = 2 ∧ ∀ q ∈ f x, 0 ≤ q ∧ q ≤ 1)

/-- `k` is (the index of) a maximal entry of `l`. -/
def IsArgmax (l : List ℚ) (k : ℕ) : Prop :=
  k < l.length ∧ ∀ j, j < l.length → l.getD j 0 ≤ l.getD k 0

/-- The scikit-learn contract for probabilistic classifiers: the label
returned by `predict` is a non-negative class index maximizing the
`predict_proba` vector. -/
def ProbaPredictConsistent (m : Classifier) : Prop :=
  ∀ f, m.predict_proba = some f → ∀ x l, m.predict x = .ok l →
    0 ≤ l ∧ IsArgmax (f x) l.toNat

/-- The scikit-learn contract for score-only binary classifiers: the label
returned by `predict` is the sign-derived class of the decision score. -/
def DecisionSignConsistent (m : Classifier) : Prop :=
  ∀ g, m.decision_function = some g → ∀ x l, m.predict x = .ok l →
    l = (if 0 < g x then 1 else 0)

/-- The example patient of the spec and of the schema documentation. -/
def examplePatient : PatientData :=
  ⟨63, 1, 1, 145, 233, 1, 2, 150, 0, 23 / 10, 3, 0, 6⟩

/-- A second valid patient, used to exercise batch failures. -/
def otherPatient : PatientData :=
  ⟨40, 0, 2, 120, 200, 0, 1, 140, 0, 0, 2, 0, 3⟩

/-- A classifier exposing neither `predict_proba` nor `decision_function`. -/
def trivialModel : Classifier :=
  ⟨fun _ => .ok 1, none, none⟩

/-- A classifier exposing `predict_proba`, always answering class 1 with
probability vector `[0.3, 0.7]`. -/
def probaModel : Classifier :=
  ⟨fun _ => .ok 1, some (fun _ => [3 / 10, 7 / 10]), none⟩

/-- A classifier that succeeds on the example patient (age 63) and raises a
`RuntimeError` on any other input. -/
def failModel : Classifier :=
  ⟨fun v => if v 0 = 63 then .ok 1 else .error "RuntimeError", none, none⟩

/-- A server state with the trivial model loaded and no scaler. -/
def baseState : ServerState :=
  ⟨some trivialModel, some "logistic_regression", none, []⟩

/-- A server state with the probabilistic model loaded and no scaler. -/
def probaState : ServerState :=
  ⟨some probaModel, some "logistic_regression", none, []⟩

/-- A server state with the sometimes-failing model loaded. -/
def failState : ServerState :=
  ⟨some failModel, some "logistic_regression", none, []⟩

/-- A server state with no model loaded (startup load failure). -/
def noModelState : ServerState :=
  ⟨none, none, none, []⟩

lemma numericCols_eq : numericCols = List.finRange 13 := by decide

lemma indexOf_finRange : ∀ i : Fin 13, (List.finRange 13).indexOf i = (i : ℕ) := by
  decide

lemma preprocessSingle_some (sc : Scaler) (v : Fin 13 → ℚ) (i : Fin 13) :
    preprocessSingle (some sc) v i = (v i - sc.mean (i : ℕ)) / sc.scale (i : ℕ) := by
  have hmem : i ∈ numericCols := by
    rw [numericCols_eq]
    exact List.mem_finRange i
  have hidx : numericCols.indexOf i = (i : ℕ) := by
    rw [numericCols_eq]
    exact indexOf_finRange i
  show (if numericCols.length > 0 then
      (fun j => if j ∈ numericCols then
          (v j - sc.mean (numericCols.indexOf j)) / sc.scale (numericCols.indexOf j)
        else v j)
    else v) i = _
  rw [if_pos (by decide : numericCols.length > 0)]
  simp only [if_pos hmem, hidx]

lemma preprocessBatch_eq_preprocessSingle : preprocessBatch = preprocessSingle := rfl

lemma computeConfidenceBatch_eq : computeConfidenceBatch = computeConfidence := rfl

/-- C4: the input validator accepts a raw mapping exactly when all 13 named
fields are present and each lies in its declared range; a rejected mapping
makes the `/predict` endpoint answer 422 without reaching the handler and
without changing any server state. -/
theorem validator_accepts_iff (r : RawPatient) (st : ServerState) :
    ((validatePatient r).isSome ↔
      ((∃ a, r.age = some a ∧ 0 ≤ a ∧ a ≤ 120) ∧
       (∃ a, r.sex = some a ∧ 0 ≤ a ∧ a ≤ 1) ∧
       (∃ a, r.cp = some a ∧ 1 ≤ a ∧ a ≤ 4) ∧
       (∃ a, r.trestbps = some a ∧ 0 ≤ a) ∧
       (∃ a, r.chol = some a ∧ 0 ≤ a) ∧
       (∃ a, r.fbs = some a ∧ 0 ≤ a ∧ a ≤ 1) ∧
       (∃ a, r.restecg = some a ∧ 0 ≤ a ∧ a ≤ 2) ∧
       (∃ a, r.thalach = some a ∧ 0 ≤ a) ∧
       (∃ a, r.exang = some a ∧ 0 ≤ a ∧ a ≤ 1) ∧
       (∃ a, r.oldpeak = some a ∧ 0 ≤ a) ∧
       (∃ a, r.slope = some a ∧ 1 ≤ a ∧ a ≤ 3) ∧
       (∃ a, r.ca = some a ∧ 0 ≤ a ∧ a ≤ 3) ∧
       (∃ a, r.thal = some a ∧ 3 ≤ a ∧ a ≤ 7))) ∧
    (validatePatient r = none →
      predictEndpoint st r = (.error (422, "validation error"), st)) := by
  constructor
  · obtain ⟨age, sex, cp, trestbps, chol, fbs, restecg, thalach, exang,
      oldpeak, slope, ca, thal⟩ := r
    rcases age with _ | age
    · simp [validatePatient]
    rcases sex with _ | sex
    · simp [validatePatient]
    rcases cp with _ | cp
    · simp [validatePatient]
    rcases trestbps with _ | trestbps
    · simp [validatePatient]
    rcases chol with _ | chol
    · simp [validatePatient]
    rcases fbs with _ | fbs
    · simp [validatePatient]
    rcases restecg with _ | restecg
    · simp [validatePatient]
    rcases thalach with _ | thalach
    · simp [validatePatient]
    rcases exang with _ | exang
    · simp [validatePatient]
    rcases oldpeak with _ | oldpeak
    · simp [validatePatient]
    rcases slope with _ | slope
    · simp [validatePatient]
    rcases ca with _ | ca
    · simp [validatePatient]
    rcases thal with _ | thal
    · simp [validatePatient]
    simp only [validatePatient]
    split_ifs with hc
    · simp only [Option.isSome_some, true_iff]
      simp only [patientInRanges] at hc
      simp only [Option.some.injEq]
      tauto
    · simp only [patientInRanges] at hc
      refine iff_of_false (by simp) ?_
      simp only [Option.some.injEq]
      rintro ⟨⟨a1, rfl, hA⟩, ⟨a2, rfl, hB⟩, ⟨a3, rfl, hC⟩, ⟨a4, rfl, hD⟩,
        ⟨a5, rfl, hE⟩, ⟨a6, rfl, hF⟩, ⟨a7, rfl, hG⟩, ⟨a8, rfl, hH⟩,
        ⟨a9, rfl, hI⟩, ⟨a10, rfl, hJ⟩, ⟨a11, rfl, hK⟩, ⟨a12, rfl, hL⟩,
        ⟨a13, rfl, hM⟩⟩
      exact hc (by tauto)
  · intro h
    simp [predictEndpoint, h]

/-- C5: with no model loaded, the single and the batch prediction handlers
both fail with 503 on every input (the empty batch included), recording only
a `ModelNotLoaded` error counter and no prediction telemetry, while `/health`
still answers 200 with `model_loaded = false`. -/
theorem no_model_unavailable (st : ServerState) (h : st.model = none) :
    (∀ p : PatientData,
        predictHandler st p =
          (.error (503, "Model not loaded"),
           { st with events :=
               st.events ++ [.errCount "ModelNotLoaded" "/predict"] })) ∧
    (∀ patients : List PatientData,
        predictBatchHandler st patients =
          (.error (503, "Model not loaded"),
           { st with events :=
               st.events ++ [.errCount "ModelNotLoaded" "/predict/batch"] })) ∧
    healthCheck st =
      (200, { status := "healthy", model_loaded := false, model_name := none }) := by
  refine ⟨fun p => ?_, fun patients => ?_, ?_⟩
  · simp [predictHandler, h]
  · simp [predictBatchHandler, h]
  · simp [healthCheck, h]

/-- Closed instance of `no_model_unavailable` at the unloaded startup state. -/
theorem no_model_unavailable_check :
    predictHandler noModelState examplePatient =
      (.error (503, "Model not loaded"),
       { noModelState with events := [.errCount "ModelNotLoaded" "/predict"] }) ∧
    predictBatchHandler noModelState [] =
      (.error (503, "Model not loaded"),
       { noModelState with events := [.errCount "ModelNotLoaded" "/predict/batch"] }) ∧
    healthCheck noModelState =
      (200, { status := "healthy", model_loaded := false, model_name := none }) :=
  ⟨(no_model_unavailable noModelState rfl).1 examplePatient,
   (no_model_unavailable noModelState rfl).2.1 [],
   (no_model_unavailable noModelState rfl).2.2⟩

/-- C7: with a model loaded, a batch over the empty patient list succeeds with
`predictions = []` and `count = 0`, leaves the server state (telemetry
included) unchanged, and the outcome does not depend on the loaded model at
all — the model is never invoked. -/
theorem empty_batch_returns_empty (st : ServerState) (m : Classifier)
    (hm : st.model = some m) :
    predictBatchHandler st [] = (.ok { predictions := [], count := 0 }, st) ∧
    ∀ m' : Classifier,
      predictBatchHandler { st with model := some m' } [] =
        (.ok { predictions := [], count := 0 }, { st with model := some m' }) := by
  obtain ⟨mo, mn, sc, evs⟩ := st
  cases hm
  constructor
  · simp [predictBatchHandler, runBatchItems]
  · intro m'
    simp [predictBatchHandler, runBatchItems]

/-- Closed instance of `empty_batch_returns_empty` at a concrete loaded
state. -/
theorem empty_batch_returns_empty_check :
    predictBatchHandler baseState [] =
      (.ok { predictions := [], count := 0 }, baseState) :=
  (empty_batch_returns_empty baseState trivialModel rfl).1

lemma predictHandler_value (st : ServerState) (m : Classifier)
    (hm : st.model = some m) (p : PatientData) :
    (predictHandler st p).1 =
      ((batchStep m st.scaler st.modelName p).map Prod.fst).mapError
        (fun e => (500, "Prediction error: " ++ e)) := by
  obtain ⟨mo, mn, sc, evs⟩ := st
  cases hm
  simp only [predictHandler, batchStep, preprocessBatch_eq_preprocessSingle,
    computeConfidenceBatch_eq]
  cases hp : m.predict (preprocessSingle sc (rawVec p)) with
  | error e => simp [hp, Except.map, Except.mapError]
  | ok l =>
      cases hc : computeConfidence m (preprocessSingle sc (rawVec p)) l with
      | error e => simp [hp, hc, Except.map, Except.mapError]
      | ok c => simp [hp, hc, Except.map, Except.mapError]

lemma runBatchItems_ok_map (m : Classifier) (sc : Option Scaler)
    (mn : Option String) (l : List PatientData) (evs : List TelemetryEvent)
    (rs : List PredictionResponse) (evs' : List TelemetryEvent)
    (h : runBatchItems m sc mn l evs = (.ok rs, evs')) :
    l.map (fun p => (batchStep m sc mn p).map Prod.fst) = rs.map Except.ok := by
  induction l generalizing evs rs evs' with
  | nil =>
      simp only [runBatchItems, Prod.mk.injEq] at h
      obtain ⟨h1, -⟩ := h
      cases h1
      simp
  | cons p rest ih =>
      simp only [runBatchItems] at h
      cases hs : batchStep m sc mn p with
      | error e =>
          simp [hs] at h
      | ok pr =>
          obtain ⟨r, nevs⟩ := pr
          rcases hr : runBatchItems m sc mn rest (evs ++ nevs) with ⟨res, evs2⟩
          simp only [hs, hr] at h
          cases res with
          | error e => simp at h
          | ok rs' =>
              simp only [Prod.mk.injEq] at h
              obtain ⟨h1, -⟩ := h
              injection h1 with h2
              subst h2
              simp only [List.map_cons, hs, Except.map]
              exact congrArg (List.cons (Except.ok r)) (ih (evs ++ nevs) rs' evs2 hr)

lemma predictBatchHandler_ok (st : ServerState) (patients : List PatientData)
    (resp : BatchPredictionResponse) (st' : ServerState)
    (h : predictBatchHandler st patients = (.ok resp, st')) :
    ∃ m evs', st.model = some m ∧
      runBatchItems m st.scaler st.modelName patients st.events =
        (.ok resp.predictions, evs') ∧
      resp.count = resp.predictions.length := by
  obtain ⟨mo, mn, sc, evs⟩ := st
  cases mo with
  | none =>
      exfalso
      simp [predictBatchHandler] at h
  | some m =>
      simp only [predictBatchHandler] at h
      rcases hr : runBatchItems m sc mn patients evs with ⟨res, evs2⟩
      rw [hr] at h
      cases res with
      | error e => simp at h
      | ok rs =>
          have h1 := congrArg Prod.fst h
          dsimp only at h1
          injection h1 with h2
          cases h2
          exact ⟨m, evs2, rfl, hr, rfl⟩

/-- C1: whenever a batch request succeeds, its result list has one entry per
input record and is element-for-element the value that the single-prediction
handler computes for that record (same label, same confidence, same model
name, in input order). -/
theorem batch_matches_singles (st : ServerState) (m : Classifier)
    (patients : List PatientData) (resp : BatchPredictionResponse)
    (st' : ServerState) (hm : st.model = some m)
    (h : predictBatchHandler st patients = (.ok resp, st')) :
    patients.map (fun p => (predictHandler st p).1) =
      resp.predictions.map Except.ok ∧
    resp.predictions.length = patients.length := by
  obtain ⟨m', evs', hm', hrun, -⟩ := predictBatchHandler_ok st patients resp st' h
  rw [hm'] at hm
  injection hm with hm
  cases hm
  have hmap := runBatchItems_ok_map m st.scaler st.modelName patients st.events
    resp.predictions evs' hrun
  constructor
  · have hfun : (fun p => (predictHandler st p).1) =
        (fun p => ((batchStep m st.scaler st.modelName p).map Prod.fst).mapError
          (fun e => (500, "Prediction error: " ++ e))) := by
      funext p
      exact predictHandler_value st m hm' p
    rw [hfun]
    have hcomp : patients.map
          (fun p => ((batchStep m st.scaler st.modelName p).map Prod.fst).mapError
            (fun e => (500, "Prediction error: " ++ e))) =
        (patients.map (fun p => (batchStep m st.scaler st.modelName p).map Prod.fst)).map
          (fun x => x.mapError (fun e => (500, "Prediction error: " ++ e))) := by
      rw [List.map_map]
      rfl
    rw [hcomp, hmap, List.map_map]
    rfl
  · have := congrArg List.length hmap
    simpa using this.symm

/-- Closed instance of `batch_matches_singles` on a one-element batch. -/
theorem batch_matches_singles_check :
    [examplePatient].map (fun p => (predictHandler baseState p).1) =
      [({ prediction := 1, confidence := 1,
          model_name := some "logistic_regression" } : PredictionResponse)].map
        Except.ok ∧
    ([({ prediction := 1, confidence := 1,
         model_name := some "logistic_regression" } : PredictionResponse)] :
      List PredictionResponse).length = [examplePatient].length :=
  batch_matches_singles baseState trivialModel [examplePatient]
    ⟨[⟨1, 1, some "logistic_regression"⟩], 1⟩
    ⟨some trivialModel, some "logistic_regression", none,
      [.predCount "disease" (some "logistic_regression"),
       .confObs "disease" 1]⟩
    rfl rfl

/-- C8: on every successful batch response, `count` equals the length of the
returned predictions list, which equals the number of patients in the
request. -/
theorem batch_count_matches (st : ServerState) (patients : List PatientData)
    (resp : BatchPredictionResponse) (st' : ServerState)
    (h : predictBatchHandler st patients = (.ok resp, st')) :
    resp.count = resp.predictions.length ∧
    resp.predictions.length = patients.length := by
  obtain ⟨m, evs', hm, hrun, hcount⟩ := predictBatchHandler_ok st patients resp st' h
  refine ⟨hcount, ?_⟩
  have hmap := runBatchItems_ok_map m st.scaler st.modelName patients st.events
    resp.predictions evs' hrun
  have := congrArg List.length hmap
  simpa using this.symm

/-- Closed instance of `batch_count_matches` on a two-element batch. -/
theorem batch_count_matches_check :
    (2 : ℕ) = ([(⟨1, 1, some "logistic_regression"⟩ : PredictionResponse),
      ⟨1, 1, some "logistic_regression"⟩]).length ∧
    ([(⟨1, 1, some "logistic_regression"⟩ : PredictionResponse),
      ⟨1, 1, some "logistic_regression"⟩]).length =
      [examplePatient, otherPatient].length :=
  batch_count_matches baseState [examplePatient, otherPatient]
    ⟨[⟨1, 1, some "logistic_regression"⟩, ⟨1, 1, some "logistic_regression"⟩], 2⟩
    ⟨some trivialModel, some "logistic_regression", none,
      [.predCount "disease" (some "logistic_regression"),
       .confObs "disease" 1,
       .predCount "disease" (some "logistic_regression"),
       .confObs "disease" 1]⟩
    rfl

lemma sigmoid_pos (s : ℝ) : 0 < sigmoid s := by
  unfold sigmoid
  positivity

lemma sigmoid_lt_one (s : ℝ) : sigmoid s < 1 := by
  unfold sigmoid
  rw [div_lt_one (by positivity)]
  have := Real.exp_pos (-s)
  linarith

lemma computeConfidence_ok_of_wf (m : Classifier) (hwf : m.WellFormed)
    (x : Fin 13 → ℚ) (l : ℤ) (hl : l = 0 ∨ l = 1) :
    ∃ c, computeConfidence m x l = .ok c ∧ 0 ≤ c ∧ c ≤ 1 := by
  cases hf : m.predict_proba with
  | some f =>
      obtain ⟨hlen, hbound⟩ := hwf.2 f hf x
      have h0 : 0 ≤ l ∧ l < ((f x).length : ℤ) := by
        rcases hl with rfl | rfl <;> omega
      have hidx : pyIndex (f x) l = .ok ((f x).get ⟨l.toNat, by omega⟩) := by
        unfold pyIndex
        rw [dif_pos h0]
      have hq := hbound ((f x).get ⟨l.toNat, by omega⟩)
        (List.get_mem (f x) l.toNat (by omega))
      refine ⟨(((f x).get ⟨l.toNat, by omega⟩ : ℚ) : ℝ), ?_, ?_, ?_⟩
      · simp only [computeConfidence, hf, hidx]
      · exact_mod_cast hq.1
      · exact_mod_cast hq.2
  | none =>
      cases hg : m.decision_function with
      | some g =>
          refine ⟨sigmoid ((g x : ℚ) : ℝ), ?_,
            le_of_lt (sigmoid_pos _), le_of_lt (sigmoid_lt_one _)⟩
          simp only [computeConfidence, hf, hg]
      | none =>
          refine ⟨1, ?_, zero_le_one, le_refl 1⟩
          simp only [computeConfidence, hf, hg]

lemma predictHandler_ok_of_wf (st : ServerState) (m : Classifier)
    (hm : st.model = some m) (hwf : m.WellFormed) (p : PatientData) :
    ∃ resp st', predictHandler st p = (.ok resp, st') ∧
      (resp.prediction = 0 ∨ resp.prediction = 1) ∧
      0 ≤ resp.confidence ∧ resp.confidence ≤ 1 ∧
      resp.model_name = st.modelName := by
  obtain ⟨mo, mn, sc, evs⟩ := st
  cases hm
  obtain ⟨l, hl, hl01⟩ := hwf.1 (preprocessSingle sc (rawVec p))
  obtain ⟨c, hc, hc0, hc1⟩ :=
    computeConfidence_ok_of_wf m hwf (preprocessSingle sc (rawVec p)) l hl01
  refine ⟨⟨l, c, mn⟩,
    ⟨some m, mn, sc, evs ++
      [.predCount (if l = 1 then "disease" else "no_disease") mn,
       .confObs (if l = 1 then "disease" else "no_disease") c]⟩,
    ?_, hl01, hc0, hc1, rfl⟩
  simp only [predictHandler, hl, hc]

/-- C3: for every valid patient record and every loaded well-formed binary
classifier, the single-prediction handler succeeds and returns a confidence
in `[0, 1]` and a label in `{0, 1}`. -/
theorem predict_in_bounds (st : ServerState) (m : Classifier) (p : PatientData)
    (hm : st.model = some m) (hwf : m.WellFormed) (hp : patientInRanges p) :
    ∃ resp st', predictHandler st p = (.ok resp, st') ∧
      (resp.prediction = 0 ∨ resp.prediction = 1) ∧
      0 ≤ resp.confidence ∧ resp.confidence ≤ 1 := by
  obtain ⟨resp, st', h1, h2, h3, h4, -⟩ := predictHandler_ok_of_wf st m hm hwf p
  exact ⟨resp, st', h1, h2, h3, h4⟩

/-- Closed instance of `predict_in_bounds` at the spec's example patient. -/
theorem predict_in_bounds_check :
    ∃ resp st', predictHandler baseState examplePatient = (.ok resp, st') ∧
      (resp.prediction = 0 ∨ resp.prediction = 1) ∧
      0 ≤ resp.confidence ∧ resp.confidence ≤ 1 :=
  predict_in_bounds baseState trivialModel examplePatient rfl
    ⟨fun _ => ⟨1, rfl, Or.inr rfl⟩, fun f hf => nomatch hf⟩
    (by norm_num [patientInRanges, examplePatient])

/-- C6: for every validated record, the feature vector handed to the
classifier is, when a transform is present, `(raw - mean) / scale` in every
coordinate, in the transform's fixed column order; when the transform is
absent, the raw values pass through unscaled and the request still
succeeds. -/
theorem feature_transform_contract (p : PatientData) (sc : Scaler)
    (st : ServerState) (m : Classifier) (hm : st.model = some m)
    (hsc : st.scaler = none) (hwf : m.WellFormed) (hp : patientInRanges p) :
    (∀ i : Fin 13,
        preprocessSingle (some sc) (rawVec p) i =
          (rawVec p i - sc.mean (i : ℕ)) / sc.scale (i : ℕ)) ∧
    preprocessSingle none (rawVec p) = rawVec p ∧
    (∃ resp st', predictHandler st p = (.ok resp, st')) := by
  refine ⟨fun i => preprocessSingle_some sc (rawVec p) i, rfl, ?_⟩
  obtain ⟨resp, st', h1, -⟩ := predictHandler_ok_of_wf st m hm hwf p
  exact ⟨resp, st', h1⟩

/-- Closed instance of `feature_transform_contract` with a concrete scaler. -/
theorem feature_transform_contract_check :
    (∀ i : Fin 13,
        preprocessSingle (some ⟨fun _ => 2, fun _ => 3⟩) (rawVec examplePatient) i =
          (rawVec examplePatient i - (2 : ℚ)) / 3) ∧
    preprocessSingle none (rawVec examplePatient) = rawVec examplePatient ∧
    (∃ resp st', predictHandler baseState examplePatient = (.ok resp, st')) :=
  feature_transform_contract examplePatient ⟨fun _ => 2, fun _ => 3⟩
    baseState trivialModel rfl rfl
    ⟨fun _ => ⟨1, rfl, Or.inr rfl⟩, fun f hf => nomatch hf⟩
    (by norm_num [patientInRanges, examplePatient])

/-- C10: the dtype-based column selection keeps all 13 input fields (binary
flags and categorical codes included, e.g. `sex` at index 1 and `fbs` at
index 5), so a loaded scaler z-scales every field of every prediction
request, in both the single and the batch path. -/
theorem scaler_covers_all_columns (sc : Scaler) (v : Fin 13 → ℚ) :
    numericCols = List.finRange 13 ∧
    (∀ i : Fin 13, selectedDtype (fieldDtype i) = true) ∧
    (∀ i : Fin 13,
        preprocessSingle (some sc) v i = (v i - sc.mean (i : ℕ)) / sc.scale (i : ℕ)) ∧
    (∀ i : Fin 13,
        preprocessBatch (some sc) v i = (v i - sc.mean (i : ℕ)) / sc.scale (i : ℕ)) ∧
    preprocessSingle (some sc) v 1 = (v 1 - sc.mean 1) / sc.scale 1 ∧
    preprocessSingle (some sc) v 5 = (v 5 - sc.mean 5) / sc.scale 5 := by
  refine ⟨numericCols_eq, by decide, fun i => preprocessSingle_some sc v i,
    fun i => ?_, preprocessSingle_some sc v 1, preprocessSingle_some sc v 5⟩
  rw [preprocessBatch_eq_preprocessSingle]
  exact preprocessSingle_some sc v i

lemma runBatchItems_fail (m : Classifier) (sc : Option Scaler)
    (mn : Option String) (pre : List PatientData) (p : PatientData)
    (rest : List PatientData) (e : String)
    (hfail : batchStep m sc mn p = .error e) :
    ∀ evs : List TelemetryEvent,
      (∀ q ∈ pre, (batchStep m sc mn q).isOk = true) →
      runBatchItems m sc mn (pre ++ p :: rest) evs =
        (.error e, evs ++ stepEventsList m sc mn pre) := by
  induction pre with
  | nil =>
      intro evs _
      simp only [List.nil_append, runBatchItems, hfail, stepEventsList,
        List.append_nil]
  | cons q pre ih =>
      intro evs hpre
      have hq := hpre q (List.mem_cons_self q pre)
      obtain ⟨r, nevs, heq⟩ : ∃ r nevs, batchStep m sc mn q = .ok (r, nevs) := by
        cases hqe : batchStep m sc mn q with
        | error err =>
            rw [hqe] at hq
            simp [Except.isOk, Except.toBool] at hq
        | ok v =>
            obtain ⟨a, b⟩ := v
            exact ⟨a, b, rfl⟩
      simp only [List.cons_append, runBatchItems, heq, List.append_eq]
      rw [ih (evs ++ nevs) (fun x hx => hpre x (List.mem_cons_of_mem q hx))]
      simp [stepEventsList, stepEvents, heq, List.append_assoc]

/-- C9: when the `k`-th record of a batch makes inference raise, the whole
request fails with a single 500 error carrying no partial predictions list,
but the prediction counters and confidence observations already recorded for
the earlier records persist in the telemetry (followed by the batch error
counter) — telemetry is not rolled back. -/
theorem batch_failure_keeps_prefix_telemetry (st : ServerState)
    (m : Classifier) (pre : List PatientData) (p : PatientData)
    (rest : List PatientData) (e : String) (hm : st.model = some m)
    (hpre : ∀ q ∈ pre, (batchStep m st.scaler st.modelName q).isOk = true)
    (hfail : batchStep m st.scaler st.modelName p = .error e) :
    predictBatchHandler st (pre ++ p :: rest) =
      (.error (500, "Batch prediction error: " ++ e),
       { st with events :=
           (st.events ++ stepEventsList m st.scaler st.modelName pre) ++
             [.errCount e "/predict/batch"] }) := by
  obtain ⟨mo, mn, sc, evs⟩ := st
  cases hm
  simp only [predictBatchHandler]
  rw [runBatchItems_fail m sc mn pre p rest e hfail evs hpre]

/-- Closed instance of `batch_failure_keeps_prefix_telemetry`: the first
record succeeds, the second raises a `RuntimeError`. -/
theorem batch_failure_keeps_prefix_telemetry_check :
    predictBatchHandler failState [examplePatient, otherPatient] =
      (.error (500, "Batch prediction error: " ++ "RuntimeError"),
       ⟨some failModel, some "logistic_regression", none,
        [.predCount "disease" (some "logistic_regression"),
         .confObs "disease" 1,
         .errCount "RuntimeError" "/predict/batch"]⟩) :=
  batch_failure_keeps_prefix_telemetry failState failModel [examplePatient]
    otherPatient [] "RuntimeError" rfl
    (fun q hq => by
      simp only [List.mem_singleton] at hq
      subst hq
      rfl)
    rfl

lemma exp_half_bounds :
    (1.6487 : ℝ) < Real.exp (1 / 2) ∧ Real.exp (1 / 2) < 1.6488 := by
  have hsq : Real.exp (1 / 2) * Real.exp (1 / 2) = Real.exp 1 := by
    rw [← Real.exp_add]
    norm_num
  have hpos : (0 : ℝ) < Real.exp (1 / 2) := Real.exp_pos _
  have hlo : (2.7182818283 : ℝ) < Real.exp 1 := Real.exp_one_gt_d9
  have hhi : Real.exp 1 < (2.7182818286 : ℝ) := Real.exp_one_lt_d9
  constructor
  · nlinarith [sq_nonneg (Real.exp (1 / 2) - 1.6487),
      sq_nonneg (Real.exp (1 / 2) + 1.6487)]
  · nlinarith [sq_nonneg (Real.exp (1 / 2) - 1.6488),
      sq_nonneg (Real.exp (1 / 2) + 1.6488)]

lemma sigmoid_half_approx :
    |sigmoid (1 / 2) - 6225 / 10000| < (1 : ℝ) / 1000 := by
  obtain ⟨hlo, hhi⟩ := exp_half_bounds
  have hpos : (0 : ℝ) < Real.exp (1 / 2) := Real.exp_pos _
  have hd : (0 : ℝ) < Real.exp (1 / 2) + 1 := by linarith
  have hval : sigmoid (1 / 2) = Real.exp (1 / 2) / (Real.exp (1 / 2) + 1) := by
    unfold sigmoid
    rw [Real.exp_neg]
    rw [show (1 : ℝ) + (Real.exp (1 / 2))⁻¹ =
      (Real.exp (1 / 2) + 1) / Real.exp (1 / 2) by field_simp]
    rw [one_div_div]
  rw [hval, abs_lt]
  constructor
  · have h1 : (6215 / 10000 : ℝ) < Real.exp (1 / 2) / (Real.exp (1 / 2) + 1) := by
      rw [lt_div_iff hd]
      linarith
    linarith
  · have h2 : Real.exp (1 / 2) / (Real.exp (1 / 2) + 1) < (6235 / 10000 : ℝ) := by
      rw [div_lt_iff hd]
      linarith
    linarith

/-- C2: the `{label, confidence}` pair follows the three-case rule.  When the
classifier exposes class probabilities (and satisfies the scikit-learn
contract that `predict` maximizes them), the label is an argmax of the
probability vector and the confidence is the probability at that label.
Otherwise, with only a decision score, the confidence is the sigmoid of the
score (for a score of `0.5` this is within `0.001` of `0.6225`) and the label
is the sign-derived class.  Otherwise the confidence is `1.0`. -/
theorem model_invoker_three_cases (m : Classifier) (x : Fin 13 → ℚ) (l : ℤ)
    (hl : m.predict x = .ok l)
    (hproba : ProbaPredictConsistent m)
    (hsign : DecisionSignConsistent m) :
    (∀ f, m.predict_proba = some f →
        IsArgmax (f x) l.toNat ∧
        computeConfidence m x l = .ok (((f x).getD l.toNat 0 : ℚ) : ℝ)) ∧
    (m.predict_proba = none → ∀ g, m.decision_function = some g →
        l = (if 0 < g x then 1 else 0) ∧
        computeConfidence m x l = .ok (sigmoid ((g x : ℚ) : ℝ))) ∧
    (m.predict_proba = none → m.decision_function = none →
        computeConfidence m x l = .ok 1) ∧
    |sigmoid (1 / 2) - 6225 / 10000| < (1 : ℝ) / 1000 := by
  refine ⟨?_, ?_, ?_, sigmoid_half_approx⟩
  · intro f hf
    obtain ⟨h0, hargmax⟩ := hproba f hf x l hl
    refine ⟨hargmax, ?_⟩
    have hlt : l < ((f x).length : ℤ) := by
      have := hargmax.1
      omega
    have hidx : pyIndex (f x) l = .ok ((f x).get ⟨l.toNat, hargmax.1⟩) := by
      unfold pyIndex
      rw [dif_pos ⟨h0, hlt⟩]
    have hgetD : (f x).getD l.toNat 0 = (f x).get ⟨l.toNat, hargmax.1⟩ :=
      List.getD_eq_get (f x) 0 hargmax.1
    simp only [computeConfidence, hf, hidx, hgetD]
  · intro hf g hg
    refine ⟨hsign g hg x l hl, ?_⟩
    simp only [computeConfidence, hf, hg]
  · intro hf hg
    simp only [computeConfidence, hf, hg]

/-- Closed instance of `model_invoker_three_cases` in the probability case:
probabilities `[0.3, 0.7]`, predicted label 1, confidence `0.7`. -/
theorem model_invoker_three_cases_check :
    IsArgmax ([3 / 10, 7 / 10] : List ℚ) 1 ∧
    computeConfidence probaModel (rawVec examplePatient) 1 =
      .ok ((7 / 10 : ℚ) : ℝ) :=
  (model_invoker_three_cases probaModel (rawVec examplePatient) 1 rfl
    (by
      intro f hf x l hl
      injection hf with hf
      injection hl with hl
      subst hf
      subst hl
      have hmax : IsArgmax ([3 / 10, 7 / 10] : List ℚ) (Int.toNat 1) := by
        refine ⟨by decide, ?_⟩
        intro j hj
        have hj2 : j < 2 := by simpa using hj
        interval_cases j <;>
          simp only [Int.toNat_one, List.getD_cons_zero, List.getD_cons_succ] <;>
          norm_num
      exact ⟨by decide, hmax⟩)
    (fun g hg => nomatch hg)).1
    (fun _ => [3 / 10, 7 / 10]) rfl

end HeartAPI
